import Mathlib

set_option maxRecDepth 100000

/-!
Shallow embedding of the YMODEM implementation (ymodem_common.h/.c,
ymodem_send.c, ymodem_receive.c).  Bytes are modelled as Nat values
(machine truncation written explicitly where the C code truncates),
C int results as Int, fallible operations as Except / Option, and the
byte transport as explicit lists of delivered values (the result of each
successive receive call; an exhausted list models a transport that only
times out from that point on).
-/

/-! ## Protocol constants (ymodem_common.h) -/

def YMODEM_CODE_SOH : Nat := 0x01
def YMODEM_CODE_STX : Nat := 0x02
def YMODEM_CODE_EOT : Nat := 0x04
def YMODEM_CODE_ACK : Nat := 0x06
def YMODEM_CODE_NAK : Nat := 0x15
def YMODEM_CODE_CAN : Nat := 0x18
def YMODEM_CODE_C : Nat := 0x43

def YMODEM_ERR_NONE : Int := 0
def YMODEM_ERR_TMO : Int := -1
def YMODEM_ERR_CODE : Int := -2
def YMODEM_ERR_SEQ : Int := -3
def YMODEM_ERR_CRC : Int := -4
def YMODEM_ERR_DSZ : Int := -5
def YMODEM_ERR_CAN : Int := -6
def YMODEM_ERR_ACK : Int := -7
def YMODEM_ERR_FILE : Int := -8

def YMODEM_STAGE_NONE : Nat := 0
def YMODEM_STAGE_ESTABLISHING : Nat := 1
def YMODEM_STAGE_ESTABLISHED : Nat := 2
def YMODEM_STAGE_TRANSMITTING : Nat := 3
def YMODEM_STAGE_FINISHING : Nat := 4
def YMODEM_STAGE_FINISHED : Nat := 5

def YMODEM_MAX_ERRORS : Nat := 5
def YMODEM_SOH_DATA_SIZE : Nat := 128
def YMODEM_STX_DATA_SIZE : Nat := 1024
def YMODEM_SOH_PACKET_SIZE : Nat := 1 + 2 + YMODEM_SOH_DATA_SIZE + 2
def YMODEM_STX_PACKET_SIZE : Nat := 1 + 2 + YMODEM_STX_DATA_SIZE + 2
def YMODEM_MAX_PACKET_SIZE : Nat := YMODEM_STX_PACKET_SIZE
def YMODEM_MAX_FILENAME_LENGTH : Nat := 256
def YMODEM_WAIT_PACKET_TIMEOUT_MS : Nat := 3000
def YMODEM_HANDSHAKE_INTERVAL_MS : Nat := 1000

/-! ## CRC-16/CCITT (ymodem_common.c) -/

/-- Entry table transcribed from crc16_ccitt_table in ymodem_common.c. -/
def crc16_ccitt_table : Array Nat := #[
  0x0000, 0x1021, 0x2042, 0x3063, 0x4084, 0x50A5, 0x60C6, 0x70E7,
  0x8108, 0x9129, 0xA14A, 0xB16B, 0xC18C, 0xD1AD, 0xE1CE, 0xF1EF,
  0x1231, 0x0210, 0x3273, 0x2252, 0x52B5, 0x4294, 0x72F7, 0x62D6,
  0x9339, 0x8318, 0xB37B, 0xA35A, 0xD3BD, 0xC39C, 0xF3FF, 0xE3DE,
  0x2462, 0x3443, 0x0420, 0x1401, 0x64E6, 0x74C7, 0x44A4, 0x5485,
  0xA56A, 0xB54B, 0x8528, 0x9509, 0xE5EE, 0xF5CF, 0xC5AC, 0xD58D,
  0x3653, 0x2672, 0x1611, 0x0630, 0x76D7, 0x66F6, 0x5695, 0x46B4,
  0xB75B, 0xA77A, 0x9719, 0x8738, 0xF7DF, 0xE7FE, 0xD79D, 0xC7BC,
  0x48C4, 0x58E5, 0x6886, 0x78A7, 0x0840, 0x1861, 0x2802, 0x3823,
  0xC9CC, 0xD9ED, 0xE98E, 0xF9AF, 0x8948, 0x9969, 0xA90A, 0xB92B,
  0x5AF5, 0x4AD4, 0x7AB7, 0x6A96, 0x1A71, 0x0A50, 0x3A33, 0x2A12,
  0xDBFD, 0xCBDC, 0xFBBF, 0xEB9E, 0x9B79, 0x8B58, 0xBB3B, 0xAB1A,
  0x6CA6, 0x7C87, 0x4CE4, 0x5CC5, 0x2C22, 0x3C03, 0x0C60, 0x1C41,
  0xEDAE, 0xFD8F, 0xCDEC, 0xDDCD, 0xAD2A, 0xBD0B, 0x8D68, 0x9D49,
  0x7E97, 0x6EB6, 0x5ED5, 0x4EF4, 0x3E13, 0x2E32, 0x1E51, 0x0E70,
  0xFF9F, 0xEFBE, 0xDFDD, 0xCFFC, 0xBF1B, 0xAF3A, 0x9F59, 0x8F78,
  0x9188, 0x81A9, 0xB1CA, 0xA1EB, 0xD10C, 0xC12D, 0xF14E, 0xE16F,
  0x1080, 0x00A1, 0x30C2, 0x20E3, 0x5004, 0x4025, 0x7046, 0x6067,
  0x83B9, 0x9398, 0xA3FB, 0xB3DA, 0xC33D, 0xD31C, 0xE37F, 0xF35E,
  0x02B1, 0x1290, 0x22F3, 0x32D2, 0x4235, 0x5214, 0x6277, 0x7256,
  0xB5EA, 0xA5CB, 0x95A8, 0x8589, 0xF56E, 0xE54F, 0xD52C, 0xC50D,
  0x34E2, 0x24C3, 0x14A0, 0x0481, 0x7466, 0x6447, 0x5424, 0x4405,
  0xA7DB, 0xB7FA, 0x8799, 0x97B8, 0xE75F, 0xF77E, 0xC71D, 0xD73C,
  0x26D3, 0x36F2, 0x0691, 0x16B0, 0x6657, 0x7676, 0x4615, 0x5634,
  0xD94C, 0xC96D, 0xF90E, 0xE92F, 0x99C8, 0x89E9, 0xB98A, 0xA9AB,
  0x5844, 0x4865, 0x7806, 0x6827, 0x18C0, 0x08E1, 0x3882, 0x28A3,
  0xCB7D, 0xDB5C, 0xEB3F, 0xFB1E, 0x8BF9, 0x9BD8, 0xABBB, 0xBB9A,
  0x4A75, 0x5A54, 0x6A37, 0x7A16, 0x0AF1, 0x1AD0, 0x2AB3, 0x3A92,
  0xFD2E, 0xED0F, 0xDD6C, 0xCD4D, 0xBDAA, 0xAD8B, 0x9DE8, 0x8DC9,
  0x7C26, 0x6C07, 0x5C64, 0x4C45, 0x3CA2, 0x2C83, 0x1CE0, 0x0CC1,
  0xEF1F, 0xFF3E, 0xCF5D, 0xDF7C, 0xAF9B, 0xBFBA, 0x8FD9, 0x9FF8,
  0x6E17, 0x7E36, 0x4E55, 0x5E74, 0x2E93, 0x3EB2, 0x0ED1, 0x1EF0]

/-- Transcription of ymodem_calc_crc16: crc is a uint16_t accumulator,
each step computes (crc << 8) XOR table[((crc >> 8) XOR byte) AND 0xFF],
truncated back to 16 bits by the uint16_t assignment. -/
def ymodem_calc_crc16 (buffer : List Nat) : Nat :=
  buffer.foldl
    (fun crc b =>
      ((crc <<< 8) ^^^ crc16_ccitt_table.getD (((crc >>> 8) ^^^ b) &&& 0xFF) 0) &&& 0xFFFF)
    0

/-! ## Sender packet builder (_ymodem_send_packet, ymodem_send.c lines 322-362)

The function is modelled as a pure map from its inputs to the pair
(returned error code, bytes handed to the transport).  sendBufferSize is
the size of ctx->send_buffer; accepted is the value the comm_send
callback returns for the assembled frame (ymodem_send_bytes passes the
whole frame to comm_send once and hands its return value back; the
caller only tests it against zero).  The seq argument is a uint8_t in C,
so the value is truncated modulo 256 at the call boundary. -/

def _ymodem_send_packet (sendBufferSize accepted code seq : Nat)
    (data : List Nat) : Int × List Nat :=
  if code = YMODEM_CODE_SOH ∧ data.length ≠ YMODEM_SOH_DATA_SIZE then
    (YMODEM_ERR_DSZ, [])
  else if code = YMODEM_CODE_STX ∧ data.length ≠ YMODEM_STX_DATA_SIZE then
    (YMODEM_ERR_DSZ, [])
  else
    let packet_size := 1 + 1 + 1 + data.length + 2
    if sendBufferSize < packet_size then
      (YMODEM_ERR_DSZ, [])
    else
      let s := seq % 256
      let crc := ymodem_calc_crc16 data
      let frame := code :: s :: (0xFF ^^^ s) ::
        (data ++ [(crc >>> 8) &&& 0xFF, crc &&& 0xFF])
      if accepted = 0 then (YMODEM_ERR_CODE, frame)
      else (YMODEM_ERR_NONE, frame)

example :
    (_ymodem_send_packet 1029 133 1 7 (List.replicate 128 0)).1 = 0 := by decide

example :
    ((_ymodem_send_packet 1029 133 1 7 (List.replicate 128 0)).2).length = 133 := by
  decide

/-- Helper: masking with 0xFF is reduction modulo 256. -/
theorem ymodem_and_255_eq_mod (n : Nat) : n &&& 0xFF = n % 256 := by
  have h := Nat.and_pow_two_sub_one_eq_mod n 8
  simpa using h

/-- Helper: the success path of the packet builder, with each of the
four guard conditions discharged. -/
theorem send_packet_success (sbs acc code seq : Nat) (data : List Nat)
    (h1 : ¬(code = YMODEM_CODE_SOH ∧ data.length ≠ YMODEM_SOH_DATA_SIZE))
    (h2 : ¬(code = YMODEM_CODE_STX ∧ data.length ≠ YMODEM_STX_DATA_SIZE))
    (h3 : 1 + 1 + 1 + data.length + 2 ≤ sbs) (h4 : acc ≠ 0) :
    _ymodem_send_packet sbs acc code seq data =
      (YMODEM_ERR_NONE,
       code :: seq % 256 :: (0xFF ^^^ seq % 256) ::
         (data ++ [(ymodem_calc_crc16 data >>> 8) &&& 0xFF,
                   ymodem_calc_crc16 data &&& 0xFF])) := by
  simp only [_ymodem_send_packet]
  rw [if_neg h1, if_neg h2, if_neg (by omega), if_neg h4]

/-- C1: for a payload of length 128 under SOH or 1024 under STX the
packet builder reports success and hands the transport the frame
header :: seq :: (seq XOR 0xFF) :: payload ++ [crc high, crc low]
(length 3 + N + 2, CRC-16/CCITT of the payload, high byte first); for a
payload of any other length under SOH or STX it fails with
WrongDataSize and hands the transport nothing. -/
theorem claim_C1 (sendBufferSize accepted code seq : Nat) (data : List Nat)
    (hbuf : YMODEM_MAX_PACKET_SIZE ≤ sendBufferSize) (hacc : 0 < accepted)
    (hseq : seq < 256) :
    (((code = YMODEM_CODE_SOH ∧ data.length = YMODEM_SOH_DATA_SIZE) ∨
      (code = YMODEM_CODE_STX ∧ data.length = YMODEM_STX_DATA_SIZE)) →
      _ymodem_send_packet sendBufferSize accepted code seq data =
        (YMODEM_ERR_NONE,
         code :: seq :: (seq ^^^ 0xFF) ::
           (data ++ [(ymodem_calc_crc16 data >>> 8) &&& 0xFF,
                     ymodem_calc_crc16 data &&& 0xFF])) ∧
      ((_ymodem_send_packet sendBufferSize accepted code seq data).2).length =
        3 + data.length + 2) ∧
    (((code = YMODEM_CODE_SOH ∧ data.length ≠ YMODEM_SOH_DATA_SIZE) ∨
      (code = YMODEM_CODE_STX ∧ data.length ≠ YMODEM_STX_DATA_SIZE)) →
      _ymodem_send_packet sendBufferSize accepted code seq data =
        (YMODEM_ERR_DSZ, [])) := by
  have hs : seq % 256 = seq := Nat.mod_eq_of_lt hseq
  have hb : (1029 : Nat) ≤ sendBufferSize := hbuf
  constructor
  · rintro (⟨hc, hl⟩ | ⟨hc, hl⟩) <;> subst hc
    · have heq := send_packet_success sendBufferSize accepted YMODEM_CODE_SOH seq data
        (by simp [hl]) (by simp [YMODEM_CODE_SOH, YMODEM_CODE_STX])
        (by rw [hl]; unfold YMODEM_SOH_DATA_SIZE; omega) (by omega)
      rw [hs, Nat.xor_comm 0xFF seq] at heq
      exact ⟨heq, by rw [heq]; simp; omega⟩
    · have heq := send_packet_success sendBufferSize accepted YMODEM_CODE_STX seq data
        (by simp [YMODEM_CODE_SOH, YMODEM_CODE_STX]) (by simp [hl])
        (by rw [hl]; unfold YMODEM_STX_DATA_SIZE at *; unfold YMODEM_MAX_PACKET_SIZE YMODEM_STX_PACKET_SIZE at hbuf; omega)
        (by omega)
      rw [hs, Nat.xor_comm 0xFF seq] at heq
      exact ⟨heq, by rw [heq]; simp; omega⟩
  · rintro (⟨hc, hl⟩ | ⟨hc, hl⟩) <;> subst hc
    · show _ymodem_send_packet _ _ _ _ _ = _
      simp only [_ymodem_send_packet]
      simp [hl]
    · show _ymodem_send_packet _ _ _ _ _ = _
      simp only [_ymodem_send_packet]
      simp [hl, YMODEM_CODE_SOH, YMODEM_CODE_STX]

/-- Witness for C1 at a concrete input: SOH, seq 7, a 128-byte payload
of 0x41 bytes, a 1029-byte send buffer, a transport that accepts all
133 bytes. -/
theorem claim_C1_witness :
    _ymodem_send_packet 1029 133 YMODEM_CODE_SOH 7 (List.replicate 128 0x41) =
      (YMODEM_ERR_NONE,
       YMODEM_CODE_SOH :: 7 :: (7 ^^^ 0xFF) ::
         (List.replicate 128 0x41 ++
           [(ymodem_calc_crc16 (List.replicate 128 0x41) >>> 8) &&& 0xFF,
            ymodem_calc_crc16 (List.replicate 128 0x41) &&& 0xFF])) ∧
    ((_ymodem_send_packet 1029 133 YMODEM_CODE_SOH 7
        (List.replicate 128 0x41)).2).length = 3 + 128 + 2 :=
  have h := (claim_C1 1029 133 YMODEM_CODE_SOH 7 (List.replicate 128 0x41)
    (by decide) (by decide) (by decide)).1 (Or.inl ⟨rfl, by decide⟩)
  ⟨h.1, by simpa using h.2⟩

/-- C8 (amended): the packet send is reported as a failure exactly when
the transport accepts zero bytes of the frame; a partial acceptance of
at least one byte (even one byte of a 133-byte frame) is treated as
success by _ymodem_send_packet, which only tests the result of
ymodem_send_bytes against zero. -/
theorem claim_C8_amended (sendBufferSize accepted code seq : Nat) (data : List Nat)
    (hsize : (code = YMODEM_CODE_SOH ∧ data.length = YMODEM_SOH_DATA_SIZE) ∨
      (code = YMODEM_CODE_STX ∧ data.length = YMODEM_STX_DATA_SIZE))
    (hbuf : YMODEM_MAX_PACKET_SIZE ≤ sendBufferSize) :
    ((_ymodem_send_packet sendBufferSize accepted code seq data).1 =
        YMODEM_ERR_CODE ↔ accepted = 0) ∧
    ((_ymodem_send_packet sendBufferSize accepted code seq data).1 =
        YMODEM_ERR_NONE ↔ 0 < accepted) := by
  have hb : (1029 : Nat) ≤ sendBufferSize := hbuf
  obtain (⟨hc, hl⟩ | ⟨hc, hl⟩) := hsize <;> subst hc <;>
    simp only [_ymodem_send_packet, YMODEM_CODE_SOH, YMODEM_CODE_STX,
      YMODEM_SOH_DATA_SIZE, YMODEM_STX_DATA_SIZE, hl] <;>
    rw [if_neg (by simp), if_neg (by simp), if_neg (by omega)] <;>
    rcases Nat.eq_zero_or_pos accepted with h0 | h0
  · simp [h0, YMODEM_ERR_CODE, YMODEM_ERR_NONE]
  · simp [Nat.pos_iff_ne_zero.mp h0, YMODEM_ERR_CODE, YMODEM_ERR_NONE, h0]
  · simp [h0, YMODEM_ERR_CODE, YMODEM_ERR_NONE]
  · simp [Nat.pos_iff_ne_zero.mp h0, YMODEM_ERR_CODE, YMODEM_ERR_NONE, h0]

/-- Counterexample to C8 as stated: the transport accepts only 1 of the
133 bytes of an SOH frame, yet the packet send reports success. -/
theorem claim_C8_counterexample :
    (_ymodem_send_packet 1029 1 YMODEM_CODE_SOH 0 (List.replicate 128 0)).1 =
      YMODEM_ERR_NONE ∧
    (1 : Nat) <
      ((_ymodem_send_packet 1029 1 YMODEM_CODE_SOH 0 (List.replicate 128 0)).2).length := by
  constructor
  · decide
  · decide

/-- Witness for the amended C8 at a concrete input: the transport
accepts zero bytes and the send is reported as WrongCode. -/
theorem claim_C8_witness :
    (_ymodem_send_packet 1029 0 YMODEM_CODE_SOH 3 (List.replicate 128 7)).1 =
      YMODEM_ERR_CODE :=
  (claim_C8_amended 1029 0 YMODEM_CODE_SOH 3 (List.replicate 128 7)
    (Or.inl ⟨rfl, by decide⟩) (by decide)).1.mpr rfl

/-! ## Transport receive model (ymodem_common.c)

A receive call is modelled by the list of results the transport will
deliver to successive calls: a byte value 0..255 or a negative error.
An exhausted list delivers timeouts, as ymodem_receive_byte maps a
zero-byte delivery to YMODEM_ERR_TMO.  The timeout argument records the
timeout constant each call site passes. -/

def ymodem_receive_byte (_timeout_ms : Nat) (pending : List Int) : Int :=
  pending.headD YMODEM_ERR_TMO

/-! ## Sender handshake, ACK plus C wait (_ymodem_do_send_handshake,
ymodem_send.c lines 231-269)

After packet 0 was sent, the sender tries up to 5 receives, each with
YMODEM_WAIT_PACKET_TIMEOUT_MS, tracking got_ack and got_c exactly as
the C loop does; the loop result is the pair of flags when the loop
breaks or the attempts run out. -/

def _ymodem_ackc_loop : Nat → List Int → Bool → Bool → Bool × Bool
  | 0, _, got_ack, got_c => (got_ack, got_c)
  | fuel + 1, pending, got_ack, got_c =>
    let ret := ymodem_receive_byte YMODEM_WAIT_PACKET_TIMEOUT_MS pending
    if ret = (YMODEM_CODE_ACK : Int) then
      -- got_ack becomes true; the loop breaks when got_c already holds
      -- (got_ack and got_c) and otherwise continues (got_ack and not got_c)
      if got_c then (true, got_c)
      else _ymodem_ackc_loop fuel pending.tail true got_c
    else if ret = (YMODEM_CODE_C : Int) then
      -- got_c becomes true; the loop breaks at once, either with got_ack
      -- already true or through the branch that assumes the ACK was lost
      -- and sets got_ack before breaking -- both flags are true either way
      (true, true)
    else
      -- neither flag changes; break only if both flags already hold
      if got_ack && got_c then (got_ack, got_c)
      else _ymodem_ackc_loop fuel pending.tail got_ack got_c

/-- Result of the ACK-and-C phase of _ymodem_do_send_handshake: the
handshake fails with AckError unless both flags hold after the loop. -/
def _ymodem_do_send_handshake_ackc (pending : List Int) : Int :=
  let r := _ymodem_ackc_loop 5 pending false false
  if !r.1 || !r.2 then YMODEM_ERR_ACK else YMODEM_ERR_NONE

/-- Helper: with got_c still false, the ACK-and-C loop ends with both
flags true exactly when a C byte is among the next fuel replies. -/
theorem ackc_loop_success (fuel : Nat) :
    ∀ (pending : List Int) (ga : Bool),
      ((_ymodem_ackc_loop fuel pending ga false).1 &&
        (_ymodem_ackc_loop fuel pending ga false).2) = true ↔
      (YMODEM_CODE_C : Int) ∈ pending.take fuel := by
  have hTA : ¬((YMODEM_ERR_TMO : Int) = (YMODEM_CODE_ACK : Int)) := by decide
  have hTC : ¬((YMODEM_ERR_TMO : Int) = (YMODEM_CODE_C : Int)) := by decide
  induction fuel with
  | zero => intro pending ga; simp [_ymodem_ackc_loop]
  | succ n ih =>
    intro pending ga
    match pending with
    | [] =>
      rw [_ymodem_ackc_loop]
      simp only [ymodem_receive_byte, List.headD_nil, List.tail_nil,
        if_neg hTA, if_neg hTC]
      cases ga <;> simp [ih]
    | r :: rest =>
      rw [_ymodem_ackc_loop]
      simp only [ymodem_receive_byte, List.headD_cons, List.tail_cons,
        List.take_succ_cons, List.mem_cons]
      by_cases hack : r = (YMODEM_CODE_ACK : Int)
      · have hrc : ¬((YMODEM_CODE_C : Int) = r) := by rw [hack]; decide
        simp only [if_pos hack]
        cases ga <;> simp [ih, hrc]
      · by_cases hc : r = (YMODEM_CODE_C : Int)
        · simp only [if_neg hack, if_pos hc, hc]
          cases ga <;>
            simp [show ¬(YMODEM_CODE_C = YMODEM_CODE_ACK) from by decide]
        · have hrc : ¬((YMODEM_CODE_C : Int) = r) := fun h => hc h.symm
          simp only [if_neg hack, if_neg hc]
          cases ga <;> simp [ih, hrc]

/-- C3: after packet 0 the handshake succeeds exactly when a C arrives
within the 5 bounded receive attempts (ACK before C, C before ACK, or C
alone, which is treated as ACK plus C); otherwise it fails with
AckError. -/
theorem claim_C3 (pending : List Int) :
    (_ymodem_do_send_handshake_ackc pending = YMODEM_ERR_NONE ↔
      (YMODEM_CODE_C : Int) ∈ pending.take 5) ∧
    (_ymodem_do_send_handshake_ackc pending = YMODEM_ERR_NONE ∨
      _ymodem_do_send_handshake_ackc pending = YMODEM_ERR_ACK) := by
  have h := ackc_loop_success 5 pending false
  constructor
  · rw [← h]
    unfold _ymodem_do_send_handshake_ackc
    rcases hr : _ymodem_ackc_loop 5 pending false false with ⟨a, c⟩
    cases a <;> cases c <;> simp [YMODEM_ERR_ACK, YMODEM_ERR_NONE]
  · unfold _ymodem_do_send_handshake_ackc
    rcases _ymodem_ackc_loop 5 pending false false with ⟨a, c⟩
    cases a <;> cases c <;> simp

example : _ymodem_do_send_handshake_ackc
    [(YMODEM_CODE_ACK : Int), (YMODEM_CODE_C : Int)] = YMODEM_ERR_NONE := by decide

example : _ymodem_do_send_handshake_ackc
    [(YMODEM_CODE_C : Int)] = YMODEM_ERR_NONE := by decide

example : _ymodem_do_send_handshake_ackc
    [(YMODEM_CODE_ACK : Int)] = YMODEM_ERR_ACK := by decide

/-! ## Sender data loop, reply handling (_ymodem_do_send_trans,
ymodem_send.c lines 484-517)

The inner retry loop for one data packet is modelled for runs in which
every retransmission of the packet is accepted by the transport (the
send-failure branch only increments retries); each iteration sends the
packet and reads one reply with YMODEM_WAIT_PACKET_TIMEOUT_MS.  fuel is
YMODEM_MAX_ERRORS minus the retries already used. -/

def _ymodem_trans_reply_loop : Nat → List Int → Except Int Unit
  | 0, _ => .error YMODEM_ERR_ACK
  | fuel + 1, pending =>
    let ret := ymodem_receive_byte YMODEM_WAIT_PACKET_TIMEOUT_MS pending
    if ret = (YMODEM_CODE_ACK : Int) then .ok ()
    else if ret = (YMODEM_CODE_NAK : Int) then
      _ymodem_trans_reply_loop fuel pending.tail
    else if ret = (YMODEM_CODE_C : Int) then .ok ()
    else if ret = (YMODEM_CODE_CAN : Int) then .error YMODEM_ERR_CAN
    else _ymodem_trans_reply_loop fuel pending.tail

/-- One data-packet cycle of _ymodem_do_send_trans: run the reply loop
with the YMODEM_MAX_ERRORS retry budget, then advance packet_seq with
the AND 0xFF mask of line 517. -/
def _ymodem_send_trans_step (packet_seq : Nat) (pending : List Int) : Except Int Nat :=
  match _ymodem_trans_reply_loop YMODEM_MAX_ERRORS pending with
  | .error e => .error e
  | .ok _ => .ok ((packet_seq + 1) &&& 0xFF)

/-- C5 (amended): a C byte received in reply to a data packet is treated
as an ACK for every data packet, whatever the current sequence number
(the code does not restrict this to SEQ = 1); the packet is considered
acknowledged and the sequence number advances modulo 256. -/
theorem claim_C5_amended (packet_seq : Nat) (rest : List Int) :
    _ymodem_send_trans_step packet_seq ((YMODEM_CODE_C : Int) :: rest) =
      .ok ((packet_seq + 1) % 256) := by
  have h : _ymodem_send_trans_step packet_seq ((YMODEM_CODE_C : Int) :: rest) =
      .ok ((packet_seq + 1) &&& 0xFF) := rfl
  rw [h, ymodem_and_255_eq_mod]

/-- Counterexample to C5 as stated: at SEQ = 2 (not the first data
packet) a C reply is still accepted as an ACK and the sequence number
advances to 3. -/
theorem claim_C5_counterexample :
    _ymodem_send_trans_step 2 [(YMODEM_CODE_C : Int)] = .ok 3 ∧ (2 : Nat) ≠ 1 :=
  ⟨rfl, by decide⟩

/-- C6 (amended): in the sender's data loop an inbound CAN in reply to a
data packet fails immediately with Cancelled (and the sender sends no
CAN bytes of its own, the loop only ever transmits data frames); the
handshake wait after packet 0, by contrast, does not treat CAN
specially -- a CAN there merely consumes one of the 5 attempts and the
handshake still succeeds when ACK and C follow. -/
theorem claim_C6_amended (packet_seq : Nat) (rest tail : List Int) :
    _ymodem_send_trans_step packet_seq ((YMODEM_CODE_CAN : Int) :: rest) =
      .error YMODEM_ERR_CAN ∧
    _ymodem_do_send_handshake_ackc ((YMODEM_CODE_CAN : Int) ::
      (YMODEM_CODE_ACK : Int) :: (YMODEM_CODE_C : Int) :: tail) =
      YMODEM_ERR_NONE :=
  ⟨rfl, rfl⟩

/-- Counterexample to C6 as stated: the handshake wait after packet 0 is
a receive point of the sender, yet an inbound CAN there does not fail
the transfer with Cancelled -- with ACK and C following, the handshake
returns success, not Cancelled. -/
theorem claim_C6_counterexample :
    _ymodem_do_send_handshake_ackc [(YMODEM_CODE_CAN : Int),
      (YMODEM_CODE_ACK : Int), (YMODEM_CODE_C : Int)] = YMODEM_ERR_NONE ∧
    YMODEM_ERR_NONE ≠ YMODEM_ERR_CAN :=
  ⟨rfl, by decide⟩

/-! ## Sender finish (_ymodem_do_send_fin, ymodem_send.c lines 590-681)

The three receive phases and the final terminator send are modelled for
runs in which every EOT byte handed to ymodem_send_byte is accepted.
Each phase consumes one reply per loop iteration; fuel is
YMODEM_MAX_ERRORS minus the retries already used. -/

/-- Phase 1 of the finish sequence: send EOT and wait for NAK, retrying
up to the error budget; some gives the replies left after the NAK. -/
def _ymodem_fin_wait_nak : Nat → List Int → Option (List Int)
  | 0, _ => none
  | fuel + 1, pending =>
    let ret := ymodem_receive_byte YMODEM_WAIT_PACKET_TIMEOUT_MS pending
    if ret = (YMODEM_CODE_NAK : Int) then some pending.tail
    else _ymodem_fin_wait_nak fuel pending.tail

/-- Phase 2 of the finish sequence: send the second EOT and wait for
ACK, also accepting NAK as proceed, retrying up to the error budget. -/
def _ymodem_fin_wait_ack : Nat → List Int → Option (List Int)
  | 0, _ => none
  | fuel + 1, pending =>
    let ret := ymodem_receive_byte YMODEM_WAIT_PACKET_TIMEOUT_MS pending
    if ret = (YMODEM_CODE_ACK : Int) then some pending.tail
    else if ret = (YMODEM_CODE_NAK : Int) then some pending.tail
    else _ymodem_fin_wait_ack fuel pending.tail

/-- Phase 3 of the finish sequence: wait for C; an ACK reply is consumed
without using a retry, any other reply uses one, and a missing C is
survivable -- the phase always returns the remaining replies. -/
def _ymodem_fin_wait_c (fuel : Nat) : List Int → List Int
  | [] => []
  | r :: rest =>
    if fuel = 0 then r :: rest
    else if r = (YMODEM_CODE_C : Int) then rest
    else if r = (YMODEM_CODE_ACK : Int) then _ymodem_fin_wait_c fuel rest
    else _ymodem_fin_wait_c (fuel - 1) rest

/-- Transcription of _ymodem_do_send_fin: the three phases above, then
the all-zero SOH SEQ 0 batch-terminator packet through
_ymodem_send_packet, then one final receive whose result is ignored.
The returned pair is (error code, ctx->stage at return). -/
def _ymodem_do_send_fin (sendBufferSize accepted : Nat) (pending : List Int) :
    Int × Nat :=
  match _ymodem_fin_wait_nak YMODEM_MAX_ERRORS pending with
  | none => (YMODEM_ERR_ACK, YMODEM_STAGE_FINISHING)
  | some p1 =>
    match _ymodem_fin_wait_ack YMODEM_MAX_ERRORS p1 with
    | none => (YMODEM_ERR_ACK, YMODEM_STAGE_FINISHING)
    | some p2 =>
      let p3 := _ymodem_fin_wait_c YMODEM_MAX_ERRORS p2
      let sent := _ymodem_send_packet sendBufferSize accepted YMODEM_CODE_SOH 0
        (List.replicate YMODEM_SOH_DATA_SIZE 0)
      if sent.1 ≠ YMODEM_ERR_NONE then (sent.1, YMODEM_STAGE_FINISHING)
      else
        let _final := ymodem_receive_byte YMODEM_WAIT_PACKET_TIMEOUT_MS p3
        (YMODEM_ERR_NONE, YMODEM_STAGE_FINISHED)

/-- C7: once the two EOT phases of the finish sequence have completed
and the batch-terminator packet (SOH, SEQ 0, all-zero 128-byte payload)
has been handed to the transport, the sender returns success with Stage
Finished whatever the remaining replies hold -- in particular whether or
not the final ACK ever arrives. -/
theorem claim_C7 (sendBufferSize accepted : Nat) (pending p1 p2 : List Int)
    (hbuf : YMODEM_MAX_PACKET_SIZE ≤ sendBufferSize) (hacc : 0 < accepted)
    (h1 : _ymodem_fin_wait_nak YMODEM_MAX_ERRORS pending = some p1)
    (h2 : _ymodem_fin_wait_ack YMODEM_MAX_ERRORS p1 = some p2) :
    _ymodem_do_send_fin sendBufferSize accepted pending =
      (YMODEM_ERR_NONE, YMODEM_STAGE_FINISHED) := by
  have hb : (1029 : Nat) ≤ sendBufferSize := hbuf
  have hsend := send_packet_success sendBufferSize accepted YMODEM_CODE_SOH 0
    (List.replicate YMODEM_SOH_DATA_SIZE 0)
    (by simp [YMODEM_SOH_DATA_SIZE]) (by simp [YMODEM_CODE_SOH, YMODEM_CODE_STX])
    (by simp [YMODEM_SOH_DATA_SIZE]; omega) (by omega)
  simp [_ymodem_do_send_fin, h1, h2, hsend]

/-- Witness for C7 at a concrete input: the receiver answers the first
EOT with NAK and the second with ACK and then goes silent, so neither
the C request nor the final ACK ever arrives; the finish sequence still
returns success with Stage Finished. -/
theorem claim_C7_witness :
    _ymodem_do_send_fin 1029 133 [(YMODEM_CODE_NAK : Int), (YMODEM_CODE_ACK : Int)] =
      (YMODEM_ERR_NONE, YMODEM_STAGE_FINISHED) :=
  claim_C7 1029 133 [(YMODEM_CODE_NAK : Int), (YMODEM_CODE_ACK : Int)]
    [(YMODEM_CODE_ACK : Int)] [] (by decide) (by decide) rfl rfl

/-! ## Receiver packet validation (_ymodem_receive_packet, second
listing in ymodem_receive.c, lines 703-745)

buf0 is the header byte already stored at buffer[0]; delivered is what
ymodem_receive_bytes returns for the remaining packet_size - 1 bytes (a
short delivery is a timeout).  Bytes are uint8_t values stored by the
transport, so list elements are byte values below 256; the complement
check writes the uint8_t complement of the sequence byte as
0xFF XOR (seq AND 0xFF). -/

def _ymodem_receive_packet (buf0 : Nat) (delivered : List Nat) :
    Except Int (Nat × List Nat) :=
  if buf0 = YMODEM_CODE_SOH ∨ buf0 = YMODEM_CODE_STX then
    let packet_size := if buf0 = YMODEM_CODE_SOH then YMODEM_SOH_PACKET_SIZE
      else YMODEM_STX_PACKET_SIZE
    let data_size := if buf0 = YMODEM_CODE_SOH then YMODEM_SOH_DATA_SIZE
      else YMODEM_STX_DATA_SIZE
    if delivered.length ≠ packet_size - 1 then .error YMODEM_ERR_TMO
    else
      let seq := delivered.getD 0 0
      if delivered.getD 1 0 ≠ 0xFF ^^^ (seq &&& 0xFF) then .error YMODEM_ERR_SEQ
      else
        let data := (delivered.drop 2).take data_size
        let received_crc := (delivered.getD (packet_size - 3) 0) <<< 8 |||
          delivered.getD (packet_size - 2) 0
        if received_crc ≠ ymodem_calc_crc16 data then .error YMODEM_ERR_CRC
        else .ok (seq, data)
  else .error YMODEM_ERR_CODE

/-- One transport interaction of the receiver's data loop: first is the
result of the ymodem_receive_byte call for the header byte; rest is
what ymodem_receive_bytes delivers for the remainder of the packet when
the header is SOH or STX. -/
structure RxAttempt where
  first : Int
  rest : List Nat

/-- Transcription of the data-transfer loop _ymodem_do_trans (second
listing in ymodem_receive.c, lines 847-958), for runs in which the file
handle is open, every file_write call writes the full amount requested
and every control-byte send is accepted.  The loop is driven by the
list of transport interactions; an exhausted list is a timeout on the
header receive.  The result is the loop return code, the list of byte
counts handed to file_write, and the ACK and NAK bytes sent. -/
def _ymodem_do_trans_loop (file_size : Nat) :
    List RxAttempt → Nat → Nat → Nat → Int × List Nat × List Nat
  | [], _, _, _ => (YMODEM_ERR_TMO, [], [])
  | a :: atts, expected_seq, error_count, total_received =>
    if a.first < 0 then (YMODEM_ERR_TMO, [], [])
    else
      let code := a.first.toNat
      if code = YMODEM_CODE_EOT then (YMODEM_ERR_NONE, [], [])
      else if ¬(code = YMODEM_CODE_SOH) ∧ ¬(code = YMODEM_CODE_STX) then
        if error_count + 1 > YMODEM_MAX_ERRORS then (YMODEM_ERR_CODE, [], [])
        else
          let r := _ymodem_do_trans_loop file_size atts expected_seq
            (error_count + 1) total_received
          (r.1, r.2.1, YMODEM_CODE_NAK :: r.2.2)
      else
        match _ymodem_receive_packet code a.rest with
        | .error e =>
          if error_count + 1 > YMODEM_MAX_ERRORS then (e, [], [])
          else
            let r := _ymodem_do_trans_loop file_size atts expected_seq
              (error_count + 1) total_received
            (r.1, r.2.1, YMODEM_CODE_NAK :: r.2.2)
        | .ok (seq, data) =>
          if ¬(seq = expected_seq) then
            if error_count + 1 > YMODEM_MAX_ERRORS then (YMODEM_ERR_SEQ, [], [])
            else
              let r := _ymodem_do_trans_loop file_size atts expected_seq
                (error_count + 1) total_received
              (r.1, r.2.1, YMODEM_CODE_NAK :: r.2.2)
          else
            let bytes_to_write :=
              if 0 < file_size ∧ file_size ≤ total_received + data.length then
                file_size - total_received
              else data.length
            let r := _ymodem_do_trans_loop file_size atts
              ((expected_seq + 1) &&& 0xFF) 0 (total_received + bytes_to_write)
            (r.1, bytes_to_write :: r.2.1, YMODEM_CODE_ACK :: r.2.2)

/-- Helper: the running total of bytes handed to file_write never passes
the announced file size when it starts below it. -/
theorem do_trans_write_bound (file_size : Nat) (hpos : 0 < file_size) :
    ∀ (atts : List RxAttempt) (expected_seq error_count total_received : Nat),
      total_received ≤ file_size →
      ((_ymodem_do_trans_loop file_size atts expected_seq error_count
        total_received).2.1).sum + total_received ≤ file_size := by
  intro atts
  induction atts with
  | nil =>
    intro es ec t ht
    simpa [_ymodem_do_trans_loop] using ht
  | cons a atts ih =>
    intro es ec t ht
    rw [_ymodem_do_trans_loop]
    by_cases hneg : a.first < 0
    · simpa [hneg] using ht
    · rw [if_neg hneg]
      by_cases heot : a.first.toNat = YMODEM_CODE_EOT
      · simpa [heot] using ht
      · rw [if_neg heot]
        by_cases hhdr : ¬(a.first.toNat = YMODEM_CODE_SOH) ∧
            ¬(a.first.toNat = YMODEM_CODE_STX)
        · rw [if_pos hhdr]
          by_cases hec : ec + 1 > YMODEM_MAX_ERRORS
          · simpa [hec] using ht
          · rw [if_neg hec]
            simpa using ih es (ec + 1) t ht
        · rw [if_neg hhdr]
          split
          · -- packet validation failed
            by_cases hec : ec + 1 > YMODEM_MAX_ERRORS
            · simpa [hec] using ht
            · rw [if_neg hec]
              simpa using ih es (ec + 1) t ht
          · -- valid packet
            rename_i seq data hpkt
            by_cases hseq : ¬(seq = es)
            · rw [if_pos hseq]
              by_cases hec : ec + 1 > YMODEM_MAX_ERRORS
              · simpa [hec] using ht
              · rw [if_neg hec]
                simpa using ih es (ec + 1) t ht
            · rw [if_neg hseq]
              by_cases hfull : 0 < file_size ∧ file_size ≤ t + data.length
              · have hle : t + (file_size - t) ≤ file_size := by omega
                have hrec := ih ((es + 1) &&& 0xFF) 0 (t + (file_size - t)) hle
                simp only [if_pos hfull, List.sum_cons]
                omega
              · have hlt : t + data.length ≤ file_size := by
                  rcases Nat.lt_or_ge (t + data.length) file_size with h | h
                  · omega
                  · exact absurd ⟨hpos, h⟩ hfull
                have hrec := ih ((es + 1) &&& 0xFF) 0 (t + data.length) hlt
                simp only [if_neg hfull, List.sum_cons]
                omega

/-- C2: with a positive announced file size the receiver's data loop
never hands file_write more than file_size bytes in total -- on the
packet that reaches the announced size the write is trimmed to
file_size minus the bytes already written, and later in-sequence
packets are trimmed to zero. -/
theorem claim_C2 (file_size : Nat) (atts : List RxAttempt)
    (hpos : 0 < file_size) :
    ((_ymodem_do_trans_loop file_size atts 1 0 0).2.1).sum ≤ file_size := by
  have h := do_trans_write_bound file_size hpos atts 1 0 0 (Nat.zero_le _)
  omega

/-- Witness for C2 at a concrete input: announced size 3, one valid
in-sequence SOH packet carrying 128 bytes of 0x41; the single write is
trimmed to 3 bytes and the total stays within the announced size. -/
theorem claim_C2_witness :
    0 < 3 ∧
    ((_ymodem_do_trans_loop 3
      [⟨(YMODEM_CODE_SOH : Int),
        1 :: 254 :: (List.replicate 128 0x41 ++
          [(ymodem_calc_crc16 (List.replicate 128 0x41) >>> 8) &&& 0xFF,
           ymodem_calc_crc16 (List.replicate 128 0x41) &&& 0xFF])⟩]
      1 0 0).2.1).sum ≤ 3 :=
  ⟨by decide, claim_C2 3 _ (by decide)⟩

example :
    (_ymodem_do_trans_loop 3
      [⟨(YMODEM_CODE_SOH : Int),
        1 :: 254 :: (List.replicate 128 0x41 ++
          [(ymodem_calc_crc16 (List.replicate 128 0x41) >>> 8) &&& 0xFF,
           ymodem_calc_crc16 (List.replicate 128 0x41) &&& 0xFF])⟩]
      1 0 0).2.1 = [3] := by decide

/-- Validation outcome of one iteration of the receiver's data loop for
a given transport interaction: none when the iteration is not a
validation failure (timeout on the header receive, EOT, or a valid
in-sequence packet), otherwise some e where e is the error kind the
failing check carries (WrongCode for a bad header byte, the
_ymodem_receive_packet error for a bad body, WrongSequence for an
out-of-sequence packet). -/
def _ymodem_trans_attempt_failure (expected_seq : Nat) (a : RxAttempt) : Option Int :=
  if a.first < 0 then none
  else
    let code := a.first.toNat
    if code = YMODEM_CODE_EOT then none
    else if ¬(code = YMODEM_CODE_SOH) ∧ ¬(code = YMODEM_CODE_STX) then
      some YMODEM_ERR_CODE
    else
      match _ymodem_receive_packet code a.rest with
      | .error e => some e
      | .ok (seq, _) =>
        if ¬(seq = expected_seq) then some YMODEM_ERR_SEQ else none

/-- C4 (amended): every packet that fails validation increments the
error count; when the incremented count still fits the budget
(at most YMODEM_MAX_ERRORS = 5) a NAK is sent and the loop continues,
and the loop fails with the last error kind as soon as the count
exceeds YMODEM_MAX_ERRORS, that is, on the sixth consecutive failure
(the failure that ends the loop is reported without a NAK). -/
theorem claim_C4_amended (file_size : Nat) (a : RxAttempt) (atts : List RxAttempt)
    (expected_seq error_count total_received : Nat) (e : Int)
    (hfail : _ymodem_trans_attempt_failure expected_seq a = some e) :
    (error_count + 1 > YMODEM_MAX_ERRORS →
      _ymodem_do_trans_loop file_size (a :: atts) expected_seq error_count
        total_received = (e, [], [])) ∧
    (error_count + 1 ≤ YMODEM_MAX_ERRORS →
      _ymodem_do_trans_loop file_size (a :: atts) expected_seq error_count
        total_received =
        ((_ymodem_do_trans_loop file_size atts expected_seq (error_count + 1)
            total_received).1,
         (_ymodem_do_trans_loop file_size atts expected_seq (error_count + 1)
            total_received).2.1,
         YMODEM_CODE_NAK ::
           (_ymodem_do_trans_loop file_size atts expected_seq (error_count + 1)
            total_received).2.2)) := by
  have hloop : _ymodem_do_trans_loop file_size (a :: atts) expected_seq
      error_count total_received =
      if error_count + 1 > YMODEM_MAX_ERRORS then (e, [], [])
      else
        ((_ymodem_do_trans_loop file_size atts expected_seq (error_count + 1)
            total_received).1,
         (_ymodem_do_trans_loop file_size atts expected_seq (error_count + 1)
            total_received).2.1,
         YMODEM_CODE_NAK ::
           (_ymodem_do_trans_loop file_size atts expected_seq (error_count + 1)
            total_received).2.2) := by
    simp only [_ymodem_trans_attempt_failure] at hfail
    rw [_ymodem_do_trans_loop]
    by_cases hneg : a.first < 0
    · simp [hneg] at hfail
    · rw [if_neg hneg] at hfail
      rw [if_neg hneg]
      by_cases heot : a.first.toNat = YMODEM_CODE_EOT
      · simp [heot] at hfail
      · rw [if_neg heot] at hfail
        rw [if_neg heot]
        by_cases hhdr : ¬(a.first.toNat = YMODEM_CODE_SOH) ∧
            ¬(a.first.toNat = YMODEM_CODE_STX)
        · rw [if_pos hhdr] at hfail
          rw [if_pos hhdr]
          have he : YMODEM_ERR_CODE = e := by simpa using hfail
          rw [he]
        · rw [if_neg hhdr] at hfail
          rw [if_neg hhdr]
          rcases hpkt : _ymodem_receive_packet a.first.toNat a.rest with epkt | pr
          · rw [hpkt] at hfail
            have he : epkt = e := by simpa using hfail
            subst he
            simp
          · rcases pr with ⟨seq, data⟩
            rw [hpkt] at hfail
            by_cases hseq : ¬(seq = expected_seq)
            · have he : YMODEM_ERR_SEQ = e := by
                simpa [hseq] using hfail
              subst he
              simp [hseq]
            · simp [hseq] at hfail
  constructor
  · intro hec
    rw [hloop, if_pos hec]
  · intro hec
    rw [hloop, if_neg (by omega)]

/-- Counterexample to C4 as stated: five consecutive validation
failures (header byte 0x03) do not end the loop -- each draws a NAK and
the loop then accepts the EOT and returns success, so reaching an error
count of YMODEM_MAX_ERRORS = 5 does not fail the transfer. -/
theorem claim_C4_counterexample :
    _ymodem_do_trans_loop 0
      (List.replicate 5 (⟨3, []⟩ : RxAttempt) ++ [⟨(YMODEM_CODE_EOT : Int), []⟩])
      1 0 0 = (YMODEM_ERR_NONE, [], List.replicate 5 YMODEM_CODE_NAK) := by
  decide

/-- Witness for the amended C4 at a concrete input: a sixth consecutive
bad header (error count already 5) ends the loop with WrongCode. -/
theorem claim_C4_witness :
    _ymodem_do_trans_loop 0 [(⟨3, []⟩ : RxAttempt)] 1 5 0 =
      (YMODEM_ERR_CODE, [], []) :=
  (claim_C4_amended 0 ⟨3, []⟩ [] 1 5 0 YMODEM_ERR_CODE (by decide)).1 (by decide)

/-! ## Receiver file-info parsing (_ymodem_parse_file_info, second
listing in ymodem_receive.c, lines 645-698) and the top-level transfer
functions (ymodem_send_file lines 67-122, ymodem_receive_file lines
517-561). -/

/-- Decimal scan of the file-size field: consume ASCII digits,
accumulating size * 10 + digit, and stop at the first non-digit. -/
def ymodem_parse_decimal : List Nat → Nat → Nat
  | [], acc => acc
  | c :: rest, acc =>
    if 48 ≤ c ∧ c ≤ 57 then ymodem_parse_decimal rest (acc * 10 + (c - 48))
    else acc

/-- Transcription of _ymodem_parse_file_info.  buf3 holds the buffer
contents from offset 3 onward (the packet-0 payload followed by the
rest of the packet buffer); a read beyond the end of the list is
modelled as 0 (the C scan reads within the caller's 1029-byte buffer).
The filename scan stops at the first NUL or after
YMODEM_MAX_FILENAME_LENGTH - 1 bytes; the C re-clamp of name_len after
the scan is a no-op and is omitted.  On success the result is the
NUL-terminated byte string stored into both ctx->filename and the
caller's file_info->filename, together with the parsed file size. -/
def _ymodem_parse_file_info (buf3 : List Nat) : Except Int (List Nat × Nat) :=
  if buf3.getD 0 0 = 0 then .error YMODEM_ERR_FILE
  else
    let name_len := min ((buf3.takeWhile (fun b => b != 0)).length)
      (YMODEM_MAX_FILENAME_LENGTH - 1)
    if name_len = 0 then .error YMODEM_ERR_FILE
    else
      let stored := buf3.take name_len ++ [0]
      let size_str := buf3.drop (name_len + 1)
      let file_size := if size_str.getD 0 0 ≠ 0 then ymodem_parse_decimal size_str 0
        else 0
      .ok (stored, file_size)

/-- Abstract record of one ymodem_send_file call: the outcome of each of
its stages.  file_open returning NULL is modelled by openResult = none;
sizeResult is what the file_size callback returns; the three stage
functions are abstracted by their returned error codes (none of them
assigns ctx->file_handle, which only ymodem_send_file itself writes). -/
structure SendFileRun where
  argsNull : Bool
  openResult : Option Unit
  sizeResult : Int
  handshakeResult : Int
  transResult : Int
  finResult : Int

/-- Control-flow model of ymodem_send_file: the returned code and the
value of ctx->file_handle when the call returns, starting from handle0
(NULL on an initialized context). -/
def ymodem_send_file (run : SendFileRun) (handle0 : Option Unit) :
    Int × Option Unit :=
  if run.argsNull then (YMODEM_ERR_CODE, handle0)
  else
    match run.openResult with
    | none => (YMODEM_ERR_FILE, none)
    | some _ =>
      if run.sizeResult < 0 then (YMODEM_ERR_FILE, none)
      else if run.handshakeResult ≠ YMODEM_ERR_NONE then (run.handshakeResult, none)
      else if run.transResult ≠ YMODEM_ERR_NONE then (run.transResult, none)
      else (run.finResult, none)

/-- Abstract record of one ymodem_receive_file call.  buf3 is the
packet buffer from offset 3 after the handshake stored packet 0 in it;
the handshake, transfer and finish stages are abstracted by their
returned error codes (they do not assign ctx->file_handle). -/
structure RecvFileRun where
  argsNull : Bool
  handshakeResult : Int
  buf3 : List Nat
  openResult : Option Unit
  transResult : Int
  finResult : Int

/-- Control-flow model of ymodem_receive_file: the returned code, the
value of ctx->file_handle when the call returns, and whether the
file_open callback was invoked. -/
def ymodem_receive_file (run : RecvFileRun) (handle0 : Option Unit) :
    Int × Option Unit × Bool :=
  if run.argsNull then (YMODEM_ERR_CODE, handle0, false)
  else if run.handshakeResult ≠ YMODEM_ERR_NONE then
    (run.handshakeResult, handle0, false)
  else
    match _ymodem_parse_file_info run.buf3 with
    | .error e => (e, handle0, false)
    | .ok _ =>
      match run.openResult with
      | none => (YMODEM_ERR_FILE, none, true)
      | some _ =>
        if run.transResult ≠ YMODEM_ERR_NONE then (run.transResult, none, true)
        else (run.finResult, none, true)

/-- C9: every terminating call of ymodem_send_file or
ymodem_receive_file on an initialized context (file handle NULL at
entry) returns with the context's file handle NULL, on the success path
as well as on every error path. -/
theorem claim_C9 (sendRun : SendFileRun) (recvRun : RecvFileRun) :
    (ymodem_send_file sendRun none).2 = none ∧
    (ymodem_receive_file recvRun none).2.1 = none := by
  constructor
  · rw [ymodem_send_file]
    repeat' first | rfl | split
  · rw [ymodem_receive_file]
    repeat' first | rfl | split

/-- C10: every successful parse of a packet-0 payload stores a
NUL-terminated filename that fits the 256-byte filename fields (at most
255 name bytes plus the terminator, even when the payload holds no NUL
within range), and a payload whose first byte is NUL makes the parse
fail with FileError, in which case ymodem_receive_file returns without
ever invoking the file_open callback. -/
theorem claim_C10 (buf3 : List Nat) (run : RecvFileRun) :
    (∀ stored fsize, _ymodem_parse_file_info buf3 = .ok (stored, fsize) →
      stored.length ≤ YMODEM_MAX_FILENAME_LENGTH ∧
      ∃ name, stored = name ++ [0] ∧
        name.length ≤ YMODEM_MAX_FILENAME_LENGTH - 1) ∧
    (buf3.getD 0 0 = 0 → _ymodem_parse_file_info buf3 = .error YMODEM_ERR_FILE) ∧
    (run.argsNull = false → run.handshakeResult = YMODEM_ERR_NONE →
      run.buf3.getD 0 0 = 0 →
      ymodem_receive_file run none = (YMODEM_ERR_FILE, none, false)) := by
  refine ⟨?_, ?_, ?_⟩
  · intro stored fsize h
    rw [_ymodem_parse_file_info] at h
    simp only [] at h
    by_cases h0 : buf3.getD 0 0 = 0
    · rw [if_pos h0] at h
      exact absurd h (by simp)
    · rw [if_neg h0] at h
      by_cases hn : min ((buf3.takeWhile (fun b => b != 0)).length)
          (YMODEM_MAX_FILENAME_LENGTH - 1) = 0
      · rw [if_pos hn] at h
        exact absurd h (by simp)
      · rw [if_neg hn] at h
        have hpair := h
        simp only [Except.ok.injEq, Prod.mk.injEq] at hpair
        obtain ⟨hs1, _⟩ := hpair
        have hmin : min ((buf3.takeWhile (fun b => b != 0)).length)
            (YMODEM_MAX_FILENAME_LENGTH - 1) ≤ YMODEM_MAX_FILENAME_LENGTH - 1 :=
          Nat.min_le_right _ _
        constructor
        · rw [← hs1]
          simp only [List.length_append, List.length_take, List.length_cons,
            List.length_nil, YMODEM_MAX_FILENAME_LENGTH]
          unfold YMODEM_MAX_FILENAME_LENGTH at hmin
          omega
        · refine ⟨buf3.take (min ((buf3.takeWhile (fun b => b != 0)).length)
            (YMODEM_MAX_FILENAME_LENGTH - 1)), hs1.symm, ?_⟩
          simp only [List.length_take]
          omega
  · intro h0
    rw [_ymodem_parse_file_info, if_pos h0]
  · intro ha hh h0
    have hp : _ymodem_parse_file_info run.buf3 = .error YMODEM_ERR_FILE := by
      rw [_ymodem_parse_file_info, if_pos h0]
    rw [ymodem_receive_file]
    simp [ha, hh, hp]

example : _ymodem_parse_file_info (97 :: 0 :: 51 :: List.replicate 125 0) =
    .ok ([97, 0], 3) := rfl

/-! ## Reference characterization of the CRC table

The table transcribed from ymodem_common.c is exactly the CRC-16/CCITT
table: entry i is the bitwise CRC (polynomial 0x1021, MSB first,
initial value 0) of the single byte i. -/

/-- One bit step of the bitwise CRC-16/CCITT computation. -/
def crc16_bit_step (crc : Nat) : Nat :=
  if crc &&& 0x8000 ≠ 0 then ((crc <<< 1) ^^^ 0x1021) &&& 0xFFFF
  else (crc <<< 1) &&& 0xFFFF

/-- Iterate the bit step n times. -/
def crc16_bits : Nat → Nat → Nat
  | 0, crc => crc
  | n + 1, crc => crc16_bits n (crc16_bit_step crc)

/-- Feed one byte into the bitwise CRC, MSB first. -/
def crc16_byte (crc b : Nat) : Nat :=
  crc16_bits 8 ((crc ^^^ (b <<< 8)) &&& 0xFFFF)

/-- Helper: each entry of the transcribed table is the bitwise
CRC-16/CCITT of its index byte. -/
theorem crc16_table_is_ccitt :
    ∀ i : Fin 256, crc16_ccitt_table.getD i 0 = crc16_byte 0 i := by decide
